import Mathlib

/-!
Verification development for the bounded streaming consumer implemented in
`tom_pittgoogle/consumer_stream_python.py` (`ConsumerStreamPython`).

The Python code is shallowly embedded: dictionaries become association lists
with first-match lookup, Python `dict.update` becomes `dictUpdate`, fallible
operations (`KeyError`, decode failures, subscripting a non-dict) become
`Option`/`Except` results, and the driver loop of `stream_alerts` becomes a
recursion over the sequence of handshake-queue events it observes.
-/

/-- Association-list lookup, modelling Python `d[k]` / `d.get(k)`:
`none` corresponds to a `KeyError` (for subscripting) or the default (for `get`). -/
def lookup {α : Type} : List (String × α) → String → Option α
  | [], _ => none
  | p :: ps, k => if p.1 = k then some p.2 else lookup ps k

/-- Modelling Python `d[k] = v` on a dict represented as an association list:
if `k` is present its value is replaced in place (Python preserves insertion
order of existing keys), otherwise the pair is appended. -/
def dictSet {α : Type} : List (String × α) → String → α → List (String × α)
  | [], k, v => [(k, v)]
  | p :: ps, k, v => if p.1 = k then (k, v) :: ps else p :: dictSet ps k v

/-- Modelling Python `d1.update(d2)` (also `{**d1, **d2}`): each binding of `d2`
is written into `d1` in order, later occurrences of a key overwriting earlier ones. -/
def dictUpdate {α : Type} (d₁ d₂ : List (String × α)) : List (String × α) :=
  d₂.foldl (fun d p => dictSet d p.1 p.2) d₁

/-- Last-occurrence lookup; describes which value a key ends up with after all
bindings of a list have been written by `dictUpdate`. -/
def lookupLast {α : Type} : List (String × α) → String → Option α
  | [], _ => none
  | p :: ps, k =>
    match lookupLast ps k with
    | some v => some v
    | none => if p.1 = k then some p.2 else none

/-- Python values that can appear in `flow_configs` and in `user_kwargs`:
`None`, an `int`, a `bool`, or some other object (modelled by a string tag).
Note Python's `type(True) == int` is `False`, so `vbool` is distinct from `vint`. -/
inductive PyVal where
  | vnone
  | vint (n : Int)
  | vbool (b : Bool)
  | vstr (s : String)
deriving DecidableEq, Repr

/-- Python truthiness of a `PyVal` (used for `if send_metadata:`). -/
def py_truthy : PyVal → Bool
  | .vnone => false
  | .vint n => decide (n ≠ 0)
  | .vbool b => b
  | .vstr s => decide (s ≠ "")

/-- The validity check of `_clean_flow_config_posint_or_none` (lines 476-478):
`(result is None) or ((type(result) == int) and (result > 0))`. -/
def posint_or_none_ok : PyVal → Bool
  | .vnone => true
  | .vint n => decide (n > 0)
  | .vbool _ => false
  | .vstr _ => false

/-- The raw `flow_configs` dict passed to `stream_alerts`: each of the three
recognized keys is either absent (`none`) or supplied with a `PyVal`. -/
structure RawFlowConfigs where
  max_results : Option PyVal
  timeout : Option PyVal
  max_backlog : Option PyVal
deriving DecidableEq, Repr

/-- The cleaned flow configs produced by `_clean_flow_configs`: `max_results`
and `timeout` are positive ints or `None`; `max_backlog` is always an int. -/
structure FlowConfigs where
  max_results : Option Int
  timeout : Option Int
  max_backlog : Int
deriving DecidableEq, Repr

/-- Model of `ConsumerStreamPython._clean_flow_config_posint_or_none` (lines 463-483):
take `flow_configs[key]` falling back to `defaults[key]` on `KeyError`, then
raise `ValueError` unless the value is a positive int or `None`. -/
def clean_flow_config_posint_or_none (supplied : Option PyVal) (default : PyVal) :
    Except String PyVal :=
  let result := supplied.getD default
  if posint_or_none_ok result then .ok result
  else .error "must be a positive integer or None."

/-- Extract the `Int` of a `vint`, `none` otherwise (used to read a cleaned
value that is known to be a positive int or `None`). -/
def pyvalToOptInt : PyVal → Option Int
  | .vint n => some n
  | _ => none

/-- Model of `ConsumerStreamPython._clean_flow_configs` (lines 426-461): clean the three
keys in order (`max_results`, `timeout`, `max_backlog`, the iteration order of
`defaults.keys()`, the first bad value raising), replace a `None` `max_backlog`
by the default `1000`, and clamp `max_backlog` down to `max_results` when
`max_results` is set and smaller. -/
def clean_flow_configs (raw : RawFlowConfigs) : Except String FlowConfigs :=
  match clean_flow_config_posint_or_none raw.max_results (.vint 10) with
  | .error e => .error e
  | .ok mr =>
    match clean_flow_config_posint_or_none raw.timeout (.vint 30) with
    | .error e => .error e
    | .ok tm =>
      match clean_flow_config_posint_or_none raw.max_backlog (.vint 1000) with
      | .error e => .error e
      | .ok mb =>
        let max_results := pyvalToOptInt mr
        let mb1 : Int := (pyvalToOptInt mb).getD 1000
        let max_backlog : Int :=
          match max_results with
          | some m => if mb1 > m then m else mb1
          | none => mb1
        .ok ⟨max_results, pyvalToOptInt tm, max_backlog⟩

/-- Structured alert data: the possible values inside a decoded alert dict. -/
inductive JVal where
  | jnull
  | jint (n : Int)
  | jstr (s : String)
  | jobj (fields : List (String × JVal))

/-- Raw payload bytes of a Pub/Sub message, abstracted to whether they decode. -/
inductive MsgPayload where
  | wellFormed (alert : List (String × JVal))
  | malformed

/-- Modelled from the spec: `decode(bytes) -> DecodedRecord` "fails with
`DecodeError` on malformed payload".  The real `avro_to_dict` lives in
`utils/templatetags/utility_tags.py`, which is not among the sources here, so
payloads are abstracted to either a well-formed alert record (decoding to it)
or malformed bytes (raising, i.e. `none`). -/
def avro_to_dict : MsgPayload → Option (List (String × JVal))
  | .wellFormed alert => some alert
  | .malformed => none

/-- Model of a `google.pubsub_v1.types.PubsubMessage` as used by the consumer:
`data` (payload bytes), `message_id`, `publish_time`, `attributes`. -/
structure PubsubMessage where
  data : MsgPayload
  message_id : String
  publish_time : String
  attributes : List (String × String)

/-- The message data handed to the user callback, per `send_data` /
`send_metadata`: raw bytes, a decoded dict, the full message object, or a
two-key dict `{send_data: alert, "metadata_dict": metadata}`. -/
inductive MsgData where
  | alert_bytes (data : MsgPayload)
  | alert_dict (d : List (String × JVal))
  | full_msg (m : PubsubMessage)
  | with_metadata (send_data : String) (alert : MsgData)
      (metadata_dict : List (String × String))

/-- Model of `ConsumerStreamPython._set_save_fields` (lines 391-400): user-supplied
fields, or the documented default whitelist. -/
def set_save_fields (fields : Option (List (String × List String))) :
    List (String × List String) :=
  match fields with
  | some f => f
  | none =>
    [("top-level", ["objectId", "candid"]),
     ("candidate", ["jd", "ra", "dec", "magpsf", "classtar"]),
     ("metadata", ["message_id", "publish_time", "kafka.timestamp"])]

/-- The comprehension `{k: alert_dict[k] for k in keys}`: look each requested
key up in `src`; a missing key is a `KeyError` (`none`). -/
def pickFields : List String → List (String × JVal) → Option (List (String × JVal))
  | [], _ => some []
  | k :: ks, src =>
    match lookup src k with
    | none => none
    | some v => (pickFields ks src).map (fun rest => (k, v) :: rest)

/-- The comprehension `{k: alert_dict["candidate"][k] for k in keys}`:
`alert_dict["candidate"]` is subscripted once per requested key, so an absent
or non-dict `"candidate"` group only raises when `keys` is nonempty. -/
def pickCandidateFields (alert_dict : List (String × JVal)) :
    List String → Option (List (String × JVal))
  | [] => some []
  | k :: ks =>
    match lookup alert_dict "candidate" with
    | some (.jobj cfs) =>
      match lookup cfs k with
      | none => none
      | some v => (pickCandidateFields alert_dict ks).map (fun rest => (k, v) :: rest)
    | _ => none

/-- Model of `ConsumerStreamPython._lighten_alert` (lines 414-419):
`alert_lite = {k: alert_dict[k] for k in self.save_fields["top-level"]}` then
`alert_lite.update({k: alert_dict["candidate"][k] for k in self.save_fields["candidate"]})`.
Any `KeyError` (a missing group name in `save_fields`, a missing requested
field, or a missing/non-dict `"candidate"` entry in the alert) is `none`. -/
def lighten_alert (save_fields : List (String × List String))
    (alert_dict : List (String × JVal)) : Option (List (String × JVal)) :=
  match lookup save_fields "top-level" with
  | none => none
  | some top_keys =>
    match pickFields top_keys alert_dict with
    | none => none
    | some alert_lite =>
      match lookup save_fields "candidate" with
      | none => none
      | some cand_keys =>
        match pickCandidateFields alert_dict cand_keys with
        | none => none
        | some cand_lite => some (dictUpdate alert_lite cand_lite)

/-- Model of `ConsumerStreamPython._extract_metadata` (lines 402-412): build
`{"message_id": ..., "publish_time": ..., **attributes}` and keep only the keys
in `save_fields["metadata"]`; an absent `"metadata"` group is a `KeyError`
(the built dict is never empty, so the comprehension always evaluates it). -/
def extract_metadata (save_fields : List (String × List String))
    (message : PubsubMessage) : Option (List (String × String)) :=
  match lookup save_fields "metadata" with
  | none => none
  | some whitelist =>
    let metadata := dictUpdate
      [("message_id", message.message_id), ("publish_time", message.publish_time)]
      message.attributes
    some (metadata.filter (fun p => whitelist.contains p.1))

/-- Model of `ConsumerStreamPython._unpack` (lines 353-385).  `send_data` other than
`"alert_bytes"`/`"alert_dict"` leaves `alert` unbound (a `NameError`, hence
`none`); on the `ztf-loop` topic the decoded dict is lightened. -/
def unpack (topic_path : String) (save_fields : List (String × List String))
    (message : PubsubMessage) (send_data : String) (send_metadata : Bool) :
    Option MsgData :=
  let alertOpt : Option MsgData :=
    if send_data = "alert_bytes" then some (.alert_bytes message.data)
    else if send_data = "alert_dict" then
      match avro_to_dict message.data with
      | none => none
      | some alert =>
        if (topic_path.splitOn "/").getLastD "" = "ztf-loop" then
          (lighten_alert save_fields alert).map .alert_dict
        else some (.alert_dict alert)
    else none
  match alertOpt with
  | none => none
  | some alert =>
    if send_metadata then
      (extract_metadata save_fields message).map
        (fun md => .with_metadata send_data alert md)
    else some alert

/-- A Python object as it appears in a user callback's `"result"` value and in
`database_list`: `None`, message data, or some other object (a string tag). -/
inductive PyObj where
  | pynone
  | msg_data (d : MsgData)
  | custom (s : String)

/-- The dict a user callback returns.  `ack`/`result` being `none` models the
corresponding key being ABSENT from the dict (`response["ack"]` raises
`KeyError`; `response.get("result", default)` yields the default).  A present
`result` key explicitly set to Python `None` is `some PyObj.pynone`. -/
structure UserResponse where
  ack : Option Bool
  result : Option PyObj

/-- Behaviour of one invocation of the user callback: it either raises or
returns a response dict. -/
inductive UcbOutcome where
  | raises
  | returns (response : UserResponse)

/-- A user callback, abstracted as a function of the message data it is passed
(the forwarded keyword arguments do not affect the control flow modelled here). -/
def UserCallback := MsgData → UcbOutcome

/-- The dict `self.callback_kwargs` built by `stream_alerts` (lines 206-213):
`{"send_data": ..., "include_metadata": ..., "user_callback": ...,
"return_list": ..., "flow_configs": ..., **user_kwargs}`.  The five explicit
keys are structure fields; `user_kwargs` holds every other key.  In particular
neither `"send_metadata"` nor `"max_results"` is an explicit key: looking
either up goes to `user_kwargs` and raises `KeyError` when absent. -/
structure CallbackKwargs where
  send_data : String
  include_metadata : Bool
  user_callback : Option UserCallback
  return_list : Bool
  flow_configs : FlowConfigs
  user_kwargs : List (String × PyVal)

/-- Lookup of `kwargs[key]` for a key other than the five explicit ones: a lookup in
`user_kwargs`, `none` modelling `KeyError`. -/
def kwargs_get_other (kwargs : CallbackKwargs) (key : String) : Option PyVal :=
  lookup kwargs.user_kwargs key

/-- A Python exception escaping `callback` unhandled. -/
inductive PyError where
  | keyError (key : String)
  | unboundLocalError (name : String)

/-- What `callback` did to the message: acknowledged it, nacked it, or raised
out of the callback so it was neither acked nor nacked. -/
inductive MsgDisposition where
  | acked
  | nacked
  | errored (e : PyError)

/-- The observable effects of one `callback` invocation: the disposition of
the message, the increments put on the handshake queue, the values appended to
`database_list` via `_collect_data`, and whether `queue.join()` was reached. -/
structure CallbackEffects where
  disposition : MsgDisposition
  queue_puts : List Nat
  collected : List PyObj
  queue_joined : Bool

/-- Outcome of the user-callback step of `callback` (lines 298-333). -/
inductive AfterUserCallback where
  | nack_return
  | unhandled_error
  | proceed (result_data : PyObj)

/-- The `try/except/else/finally` around the user callback (lines 298-333):

* no callback configured: `result_data = msg_data`, `ack = True` (lines 330-333);
* the callback raises: `ack = False` in `except`, so `finally` logs, nacks and
  returns;
* the callback returns a dict without an `"ack"` key: `ack = response["ack"]`
  raises `KeyError` inside the `else` suite (NOT covered by the `except`), and
  the `finally` clause then reads the still-unbound local `ack`, raising
  `UnboundLocalError` out of `callback`;
* `ack` false: `finally` nacks and returns;
* `ack` true: `result_data = response.get("result", msg_data)` (line 328). -/
def user_callback_step (user_callback : Option UserCallback) (msg_data : MsgData) :
    AfterUserCallback :=
  match user_callback with
  | none => .proceed (.msg_data msg_data)
  | some ucb =>
    match ucb msg_data with
    | .raises => .nack_return
    | .returns response =>
      match response.ack with
      | none => .unhandled_error
      | some false => .nack_return
      | some true => .proceed (response.result.getD (.msg_data msg_data))

/-- The mutable consumer attributes that `callback` reads:
`self.topic_path` and `self.save_fields` (`database_list` is threaded
separately, see `run_messages`). -/
structure ConsumerStreamPython where
  topic_path : String
  save_fields : List (String × List String)

/-- Model of `ConsumerStreamPython.callback` (lines 270-351).

Step 1 (lines 277-296): for `send_data == "full_msg"` the message object is
used directly; otherwise `self._unpack(message, kwargs["send_data"],
kwargs["send_metadata"])` is called — and `"send_metadata"` is NOT a key of
`callback_kwargs` (which stores `"include_metadata"`), so by default the
argument evaluation raises `KeyError`, which the surrounding `except` treats
like any unpacking error: log, nack, return.

Step 2: `user_callback_step` above.

Step 3 (lines 335-347): `count = 1` and optional collection when
`result_data is not None`, else `count = 0`; `self.queue.put(count)`; then
`kwargs['max_results']` — again NOT a key of `callback_kwargs` (the cleaned
value lives in `kwargs["flow_configs"]`), so by default this raises `KeyError`
out of `callback`, before `queue.join()` and before `message.ack()`.  When the
key IS present in `user_kwargs`, `queue.join()` is called iff its value is not
`None`, and then the message is acked (line 350, `ack` is true on this path).

`callback_unpack_step` is step 1 (the computation of `msg_data`, lines
277-296, with `none` for the exceptional branch that logs, nacks and
returns); `callback` is the whole method. -/
def callback_unpack_step (self : ConsumerStreamPython) (kwargs : CallbackKwargs)
    (message : PubsubMessage) : Option MsgData :=
  if kwargs.send_data = "full_msg" then some (.full_msg message)
  else
    match kwargs_get_other kwargs "send_metadata" with
    | none => none
    | some sm =>
      unpack self.topic_path self.save_fields message kwargs.send_data (py_truthy sm)

/-- Body of `ConsumerStreamPython.callback` (see `callback_unpack_step`). -/
def callback (self : ConsumerStreamPython) (kwargs : CallbackKwargs)
    (message : PubsubMessage) : CallbackEffects :=
  match callback_unpack_step self kwargs message with
  | none => ⟨.nacked, [], [], false⟩
  | some msg_data =>
    match user_callback_step kwargs.user_callback msg_data with
    | .nack_return => ⟨.nacked, [], [], false⟩
    | .unhandled_error => ⟨.errored (.unboundLocalError "ack"), [], [], false⟩
    | .proceed result_data =>
      let count : Nat := match result_data with | .pynone => 0 | _ => 1
      let collected : List PyObj :=
        match result_data with
        | .pynone => []
        | rd => if kwargs.return_list then [rd] else []
      match kwargs_get_other kwargs "max_results" with
      | none => ⟨.errored (.keyError "max_results"), [count], collected, false⟩
      | some mr =>
        let joined : Bool := match mr with | .vnone => false | _ => true
        ⟨.acked, [count], collected, joined⟩

/-- Model of `ConsumerStreamPython._collect_data` (lines 387-389): append to the
`database_list` attribute (initialized once, in `__init__` line 86). -/
def collect_data (database_list : List PyObj) (alert : PyObj) : List PyObj :=
  database_list ++ [alert]

/-- The effect of a run's worker on `database_list`: deliveries are processed
one at a time through `callback`, each appending its collected values via
`_collect_data`.  `database_list` is never reset between runs. -/
def run_messages (self : ConsumerStreamPython) (kwargs : CallbackKwargs) :
    List PubsubMessage → List PyObj → List PyObj
  | [], database_list => database_list
  | m :: ms, database_list =>
    run_messages self kwargs ms ((callback self kwargs m).collected.foldl collect_data database_list)

/-- One observation of the driver's `self.queue.get(block=True, timeout=...)`
(line 242): either an increment put by the worker arrives, or the wait times
out and `queue.Empty` is raised. -/
inductive QueueEvent where
  | increment (count : Nat)
  | empty

/-- How the driver loop of `stream_alerts` ended. -/
inductive RunTermination where
  | timed_out
  | max_reached
  | type_error

/-- Python's `&` on the integers that reach the driver's stop check: the
cleaned `max_results` is a validated positive int and `num_saved` is a sum of
nonnegative counts, and on nonnegative ints Python `&` is bitwise and. -/
def py_and (a : Int) (b : Nat) : Int := Int.ofNat (a.toNat &&& b)

/-- The driver loop of `stream_alerts` (lines 239-249):

```
num_saved = 0
while True:
    try: num_saved += self.queue.get(block=True, timeout=flow_configs['timeout'])
    except Empty: break
    else:
        self.queue.task_done()
        if flow_configs['max_results'] & num_saved >= flow_configs['max_results']: break
```

Python parses the condition as `(max_results & num_saved) >= max_results`
(`&` binds tighter than `>=`).  When `max_results` is `None`, `None &
num_saved` raises `TypeError` after EVERY successful `get` — caught by the
driver's blanket `except`, which stops the pull and re-raises.  The event list
supplies the observed queue outcomes; `none` means the modelled events ran out
before the loop terminated. -/
def stream_loop (max_results : Option Int) :
    List QueueEvent → Nat → Option (Nat × RunTermination)
  | [], _ => none
  | .empty :: _, num_saved => some (num_saved, .timed_out)
  | .increment k :: rest, num_saved =>
    let num_saved := num_saved + k
    match max_results with
    | none => some (num_saved, .type_error)
    | some m =>
      if py_and m num_saved ≥ m then some (num_saved, .max_reached)
      else stream_loop max_results rest num_saved

/-- The outcome of one `stream_alerts` call as seen by the caller. -/
structure RunResult where
  num_saved : Nat
  termination : RunTermination
  returned : Option (List PyObj)

/-- The driver side of `stream_alerts` (lines 236-268) after the pull has
started: run the loop; on `type_error` the exception is re-raised after
`_stop()`, so nothing is returned; otherwise `_stop()` is called and
`database_list` is returned iff `return_list` is true. -/
def stream_alerts_driver (flow_configs : FlowConfigs) (return_list : Bool)
    (database_list : List PyObj) (events : List QueueEvent) : Option RunResult :=
  match stream_loop flow_configs.max_results events 0 with
  | none => none
  | some (n, .type_error) => some ⟨n, .type_error, none⟩
  | some (n, t) => some ⟨n, t, if return_list then some database_list else none⟩

/-- A sample decoded ZTF alert record. -/
def sample_alert : List (String × JVal) :=
  [("objectId", .jstr "ZTF21aaaaaaa"), ("candid", .jint 1705),
   ("candidate", .jobj
     [("jd", .jint 2459000), ("ra", .jint 10), ("dec", .jint 20),
      ("magpsf", .jint 18), ("classtar", .jint 1)])]

/-- A sample delivered message with a well-formed payload. -/
def sample_message : PubsubMessage :=
  ⟨.wellFormed sample_alert, "msg-1", "2021-06-01 00:00:00", [("kafka.timestamp", "t0")]⟩

/-- A consumer as set up by `__init__` for the `ztf-loop` topic with the
default `save_fields`. -/
def sample_consumer : ConsumerStreamPython :=
  ⟨"projects/ardent-cycling-243415/topics/ztf-loop", set_save_fields none⟩

/-- The `callback_kwargs` produced by a `stream_alerts` call that passes no
extra `user_kwargs` and keeps the default flow configs
(`clean_flow_configs ⟨none, none, none⟩ = .ok ⟨some 10, some 30, 10⟩`). -/
def default_kwargs (send_data : String) (user_callback : Option UserCallback)
    (return_list : Bool) : CallbackKwargs :=
  ⟨send_data, false, user_callback, return_list, ⟨some 10, some 30, 10⟩, []⟩

/-- A supplied flow-config value that fails the positive-int-or-`None` check. -/
def bad_flow_value (o : Option PyVal) : Prop :=
  ∃ v, o = some v ∧ posint_or_none_ok v = false

/-- Claim C1: the claim says that after the pipeline decides a message's
disposition the worker puts exactly one increment on the handshake queue and,
`max_results` being bounded, blocks on `queue.join()` until the driver has
drained the increment and only then calls `ack`.  The code does put exactly
one increment (here `[1]`), but then evaluates `kwargs['max_results']` — a key
that `callback_kwargs` does not contain (the cleaned value lives under
`kwargs["flow_configs"]`) — so a `KeyError` escapes `callback` before
`queue.join()` and before `message.ack()`: the message is never acknowledged
at all.  This theorem evaluates the code at the failing input: a bounded run
(`max_results = 10`), `send_data = "full_msg"`, no user callback. -/
theorem claim1_no_join_no_ack :
    callback sample_consumer (default_kwargs "full_msg" none false) sample_message
      = ⟨.errored (.keyError "max_results"), [1], [], false⟩
    ∧ (default_kwargs "full_msg" none false).flow_configs.max_results = some 10 :=
  ⟨rfl, rfl⟩

/-- Claim C2: the claim says the driver's continue/stop decision is a true
boolean conjunction, so that with `max_results` unset a counted message never
stops or aborts the loop.  In the code the check is
`flow_configs['max_results'] & num_saved >= flow_configs['max_results']`, and
with `max_results = None` the subexpression `None & num_saved` raises
`TypeError` on the very first drained increment; the driver's blanket
`except` stops the pull and re-raises, aborting the run.  This theorem
evaluates the code at the failing input: the validated configuration
`{max_results: None, timeout: 30}` and a single counted message. -/
theorem claim2_none_max_results_type_error :
    clean_flow_configs ⟨some .vnone, some (.vint 30), none⟩ = .ok ⟨none, some 30, 1000⟩
    ∧ stream_alerts_driver ⟨none, some 30, 1000⟩ true [] [.increment 1]
        = some ⟨1, .type_error, none⟩ :=
  ⟨rfl, rfl⟩

/-- Claim C3: the claim says that for a well-formed payload (and `send_data`
not `"full_msg"`) the unpack step succeeds and the pipeline goes on to invoke
the configured user callback, the log-nack-return branch being reserved for
malformed payloads.  In the code the unpack step evaluates
`kwargs["send_metadata"]`, a key `callback_kwargs` does not contain (it stores
`"include_metadata"`), so the `KeyError` is caught by the blanket `except`
and EVERY message — well-formed or not — is logged, nacked and dropped, and
the user callback is never invoked.  This theorem evaluates the code at the
failing input: a well-formed message, `send_data = "alert_dict"`, a user
callback that would ack. -/
theorem claim3_wellformed_payload_nacked :
    callback sample_consumer
      (default_kwargs "alert_dict" (some (fun _ => .returns ⟨some true, none⟩)) false)
      sample_message
      = ⟨.nacked, [], [], false⟩
    ∧ avro_to_dict sample_message.data = some sample_alert :=
  ⟨rfl, rfl⟩

/-- Claim C5: the claim distinguishes a callback response with `result`
explicitly `None` (acknowledged, increment `0`, nothing collected) from one
with the `result` key absent (increment `1`, the original message data
collected).  The increments and the collection behave exactly as claimed —
first conjunct: `result = None` puts `[0]` and collects nothing; second
conjunct: absent `result` puts `[1]` and collects the original `msg_data` —
but in both cases `callback` then raises `KeyError` on `kwargs['max_results']`
before `message.ack()`, so the "message is acknowledged" part of the claim
never happens (same slip as claim C1). -/
theorem claim5_result_none_vs_absent :
    callback sample_consumer
      (default_kwargs "full_msg" (some (fun _ => .returns ⟨some true, some .pynone⟩)) true)
      sample_message
      = ⟨.errored (.keyError "max_results"), [0], [], false⟩
    ∧ callback sample_consumer
      (default_kwargs "full_msg" (some (fun _ => .returns ⟨some true, none⟩)) true)
      sample_message
      = ⟨.errored (.keyError "max_results"), [1], [.msg_data (.full_msg sample_message)], false⟩ :=
  ⟨rfl, rfl⟩

/-- Claim C6: when the user callback raises, `callback` logs the cause, nacks
the message and returns: no increment is put on the handshake queue, nothing
is collected, and nothing is raised out of `callback` (the stream is not
aborted). -/
theorem claim6_user_callback_raises_nacks (self : ConsumerStreamPython)
    (kwargs : CallbackKwargs) (message : PubsubMessage) (ucb : UserCallback)
    (msg_data : MsgData)
    (hunpack : callback_unpack_step self kwargs message = some msg_data)
    (hucb : kwargs.user_callback = some ucb)
    (hraise : ucb msg_data = .raises) :
    callback self kwargs message = ⟨.nacked, [], [], false⟩ := by
  unfold callback
  rw [hunpack]
  simp only [user_callback_step, hucb, hraise]

/-- Witness for claim C6 at a concrete input. -/
theorem claim6_witness :
    callback_unpack_step sample_consumer (default_kwargs "full_msg" (some (fun _ => .raises)) false)
      sample_message = some (.full_msg sample_message)
    ∧ callback sample_consumer (default_kwargs "full_msg" (some (fun _ => .raises)) false)
      sample_message = ⟨.nacked, [], [], false⟩ :=
  ⟨rfl, claim6_user_callback_raises_nacks sample_consumer
    (default_kwargs "full_msg" (some (fun _ => .raises)) false) sample_message
    (fun _ => .raises) (.full_msg sample_message) rfl rfl rfl⟩

/-- Claim C10: when the user callback returns a dict without an `"ack"` key,
`ack = response["ack"]` raises `KeyError` in the `else` suite (not covered by
the `except`), and the `finally` clause then reads the never-assigned local
`ack`, raising `UnboundLocalError` out of `callback`: the message is neither
acked nor nacked and no increment is put on the handshake queue. -/
theorem claim10_missing_ack_unhandled (self : ConsumerStreamPython)
    (kwargs : CallbackKwargs) (message : PubsubMessage) (ucb : UserCallback)
    (msg_data : MsgData) (response : UserResponse)
    (hunpack : callback_unpack_step self kwargs message = some msg_data)
    (hucb : kwargs.user_callback = some ucb)
    (hret : ucb msg_data = .returns response)
    (hnoack : response.ack = none) :
    callback self kwargs message = ⟨.errored (.unboundLocalError "ack"), [], [], false⟩ := by
  unfold callback
  rw [hunpack]
  simp only [user_callback_step, hucb, hret, hnoack]

/-- Witness for claim C10 at a concrete input. -/
theorem claim10_witness :
    callback_unpack_step sample_consumer
      (default_kwargs "full_msg" (some (fun _ => .returns ⟨none, none⟩)) false)
      sample_message = some (.full_msg sample_message)
    ∧ callback sample_consumer
      (default_kwargs "full_msg" (some (fun _ => .returns ⟨none, none⟩)) false)
      sample_message = ⟨.errored (.unboundLocalError "ack"), [], [], false⟩ :=
  ⟨rfl, claim10_missing_ack_unhandled sample_consumer
    (default_kwargs "full_msg" (some (fun _ => .returns ⟨none, none⟩)) false)
    sample_message (fun _ => .returns ⟨none, none⟩) (.full_msg sample_message)
    ⟨none, none⟩ rfl rfl rfl rfl⟩

/-- Claim C7: with `idleTimeout` set, if no increment arrives within the
timeout then `queue.get` raises `queue.Empty`, the driver breaks out of the
loop, stops the pull gracefully and returns whatever `database_list` holds
(the empty sequence when nothing was delivered) — a normal termination, not
an error and not a hang. -/
theorem claim7_idle_timeout_returns (flow_configs : FlowConfigs)
    (database_list : List PyObj) (events : List QueueEvent) (t : Int)
    (_htimeout : flow_configs.timeout = some t) :
    stream_alerts_driver flow_configs true database_list (.empty :: events)
      = some ⟨0, .timed_out, some database_list⟩ := rfl

/-- Witness for claim C7: `max_results` unset, `idleTimeout = 1`, no message
ever delivered — the run returns the empty sequence. -/
theorem claim7_witness :
    stream_alerts_driver ⟨none, some 1, 1000⟩ true [] [.empty]
      = some ⟨0, .timed_out, some []⟩ :=
  claim7_idle_timeout_returns ⟨none, some 1, 1000⟩ [] [] 1 rfl

theorem foldl_collect_data (l : List PyObj) :
    ∀ database_list, l.foldl collect_data database_list = database_list ++ l := by
  induction l with
  | nil => intro db; simp
  | cons x xs ih =>
    intro db
    simp only [List.foldl_cons]
    rw [ih]
    simp [collect_data]

theorem run_messages_append (self : ConsumerStreamPython) (kwargs : CallbackKwargs)
    (msgs : List PubsubMessage) :
    ∀ database_list, run_messages self kwargs msgs database_list
      = database_list ++ run_messages self kwargs msgs [] := by
  induction msgs with
  | nil => intro db; simp [run_messages]
  | cons m ms ih =>
    intro db
    simp only [run_messages, foldl_collect_data]
    rw [ih (db ++ (callback self kwargs m).collected),
        ih ([] ++ (callback self kwargs m).collected)]
    simp

/-- Claim C9: `database_list` is created once in `__init__` and only ever
appended to — `stream_alerts` never clears it.  After a second run on the
same consumer, the list (which `stream_alerts` returns when `return_list` is
true) is exactly the first run's collected results followed by the second
run's collected results. -/
theorem claim9_database_list_accumulates (self : ConsumerStreamPython)
    (kwargs1 kwargs2 : CallbackKwargs) (msgs1 msgs2 : List PubsubMessage) :
    run_messages self kwargs2 msgs2 (run_messages self kwargs1 msgs1 [])
      = run_messages self kwargs1 msgs1 [] ++ run_messages self kwargs2 msgs2 [] :=
  run_messages_append self kwargs2 msgs2 (run_messages self kwargs1 msgs1 [])

theorem clean_posint_error_iff (o : Option PyVal) (d : PyVal)
    (hd : posint_or_none_ok d = true) :
    (∃ e, clean_flow_config_posint_or_none o d = .error e) ↔ bad_flow_value o := by
  cases o with
  | none => simp [clean_flow_config_posint_or_none, hd, bad_flow_value]
  | some v =>
    cases hv : posint_or_none_ok v with
    | true => simp [clean_flow_config_posint_or_none, hv, bad_flow_value]
    | false => simp [clean_flow_config_posint_or_none, hv, bad_flow_value]

theorem clean_posint_not_bad (o : Option PyVal) (d mr : PyVal)
    (hd : posint_or_none_ok d = true)
    (h : clean_flow_config_posint_or_none o d = .ok mr) : ¬ bad_flow_value o := by
  intro hb
  rcases (clean_posint_error_iff o d hd).mpr hb with ⟨e, he⟩
  rw [h] at he
  exact Except.noConfusion he

theorem clean_posint_ok_val (o : Option PyVal) (d mr : PyVal)
    (h : clean_flow_config_posint_or_none o d = .ok mr) : mr = o.getD d := by
  simp only [clean_flow_config_posint_or_none] at h
  split at h
  · injection h with h
    exact h.symm
  · exact Except.noConfusion h

theorem clean_flow_configs_error_iff (raw : RawFlowConfigs) :
    (∃ e, clean_flow_configs raw = .error e) ↔
      (bad_flow_value raw.max_results ∨ bad_flow_value raw.timeout ∨
        bad_flow_value raw.max_backlog) := by
  cases hmr : clean_flow_config_posint_or_none raw.max_results (.vint 10) with
  | error e =>
    have hcfg : clean_flow_configs raw = .error e := by
      simp only [clean_flow_configs, hmr]
    constructor
    · intro _
      exact Or.inl ((clean_posint_error_iff raw.max_results (.vint 10) rfl).mp ⟨e, hmr⟩)
    · intro _
      exact ⟨e, hcfg⟩
  | ok mr =>
    have h1 : ¬ bad_flow_value raw.max_results := clean_posint_not_bad raw.max_results (.vint 10) mr rfl hmr
    cases htm : clean_flow_config_posint_or_none raw.timeout (.vint 30) with
    | error e =>
      have hcfg : clean_flow_configs raw = .error e := by
        simp only [clean_flow_configs, hmr, htm]
      constructor
      · intro _
        exact Or.inr (Or.inl ((clean_posint_error_iff raw.timeout (.vint 30) rfl).mp ⟨e, htm⟩))
      · intro _
        exact ⟨e, hcfg⟩
    | ok tm =>
      have h2 : ¬ bad_flow_value raw.timeout := clean_posint_not_bad raw.timeout (.vint 30) tm rfl htm
      cases hmb : clean_flow_config_posint_or_none raw.max_backlog (.vint 1000) with
      | error e =>
        have hcfg : clean_flow_configs raw = .error e := by
          simp only [clean_flow_configs, hmr, htm, hmb]
        constructor
        · intro _
          exact Or.inr (Or.inr ((clean_posint_error_iff raw.max_backlog (.vint 1000) rfl).mp ⟨e, hmb⟩))
        · intro _
          exact ⟨e, hcfg⟩
      | ok mb =>
        have h3 : ¬ bad_flow_value raw.max_backlog := clean_posint_not_bad raw.max_backlog (.vint 1000) mb rfl hmb
        constructor
        · rintro ⟨e, he⟩
          simp only [clean_flow_configs, hmr, htm, hmb] at he
          exact Except.noConfusion he
        · rintro (h | h | h)
          · exact absurd h h1
          · exact absurd h h2
          · exact absurd h h3

theorem clean_flow_configs_backlog (raw : RawFlowConfigs) (cfg : FlowConfigs)
    (hok : clean_flow_configs raw = .ok cfg)
    (hunset : raw.max_backlog.getD .vnone = .vnone) :
    cfg.max_backlog = match cfg.max_results with
      | some m => min 1000 m
      | none => 1000 := by
  cases hmr : clean_flow_config_posint_or_none raw.max_results (.vint 10) with
  | error e =>
    simp only [clean_flow_configs, hmr] at hok
    exact Except.noConfusion hok
  | ok mr =>
    cases htm : clean_flow_config_posint_or_none raw.timeout (.vint 30) with
    | error e =>
      simp only [clean_flow_configs, hmr, htm] at hok
      exact Except.noConfusion hok
    | ok tm =>
      cases hmb : clean_flow_config_posint_or_none raw.max_backlog (.vint 1000) with
      | error e =>
        simp only [clean_flow_configs, hmr, htm, hmb] at hok
        exact Except.noConfusion hok
      | ok mb =>
        simp only [clean_flow_configs, hmr, htm, hmb] at hok
        have hmbval : mb = raw.max_backlog.getD (.vint 1000) :=
          clean_posint_ok_val _ _ _ hmb
        have hmb1 : (pyvalToOptInt mb).getD 1000 = 1000 := by
          cases hb : raw.max_backlog with
          | none =>
            rw [hb] at hmbval
            simp [hmbval, pyvalToOptInt]
          | some v =>
            rw [hb] at hunset
            simp only [Option.getD_some] at hunset
            rw [hb, hunset] at hmbval
            simp [hmbval, pyvalToOptInt]
        injection hok with hok
        subst hok
        cases hmrv : pyvalToOptInt mr with
        | none => simp [hmrv, hmb1]
        | some m =>
          simp only [hmrv, hmb1]
          rw [min_def]
          split_ifs <;> omega

/-- Claim C4 counterexample: the claim says validation fails with an error
when both `maxResults` and `idleTimeout` are unset, but `_clean_flow_configs`
performs no such check: it accepts `{max_results: None, timeout: None}` and
returns a cleaned configuration. -/
theorem claim4_counterexample :
    clean_flow_configs ⟨some .vnone, some .vnone, none⟩ = .ok ⟨none, none, 1000⟩ := rfl

/-- Claim C4 as amended: validation fails (with `ValueError`) if and only if
some supplied bound is neither `None` nor a positive integer — both
`max_results` and `timeout` being unset is accepted — and on success, when
`max_backlog` was not supplied (or supplied as `None`), the resulting
`max_backlog` is `min 1000 max_results` when `max_results` is set, else the
default `1000`. -/
theorem claim4_amended (raw : RawFlowConfigs) :
    ((∃ e, clean_flow_configs raw = .error e) ↔
      (bad_flow_value raw.max_results ∨ bad_flow_value raw.timeout ∨
        bad_flow_value raw.max_backlog))
    ∧ (∀ cfg, clean_flow_configs raw = .ok cfg →
        raw.max_backlog.getD .vnone = .vnone →
        cfg.max_backlog = match cfg.max_results with
          | some m => min 1000 m
          | none => 1000) :=
  ⟨clean_flow_configs_error_iff raw,
   fun cfg hok hunset => clean_flow_configs_backlog raw cfg hok hunset⟩

/-- Witness for claim C4 at a concrete input: `max_results = 5` supplied,
`max_backlog` unset, so the clamped backlog is `min 1000 5 = 5`. -/
theorem claim4_witness :
    clean_flow_configs ⟨some (.vint 5), none, none⟩ = .ok ⟨some 5, some 30, 5⟩
    ∧ (5 : Int) = min 1000 5 := by
  refine ⟨rfl, ?_⟩
  exact (claim4_amended ⟨some (.vint 5), none, none⟩).2 ⟨some 5, some 30, 5⟩ rfl rfl

theorem lookup_dictSet {α : Type} (d : List (String × α)) (k : String) (v : α)
    (q : String) :
    lookup (dictSet d k v) q = if k = q then some v else lookup d q := by
  induction d with
  | nil =>
    simp only [dictSet, lookup]
  | cons p ps ih =>
    simp only [dictSet]
    by_cases hpk : p.1 = k
    · simp only [if_pos hpk, lookup]
      split_ifs <;> simp_all
    · simp only [if_neg hpk, lookup, ih]
      split_ifs <;> simp_all

theorem lookup_dictUpdate {α : Type} (d₂ : List (String × α)) :
    ∀ (d₁ : List (String × α)) (q : String),
      lookup (dictUpdate d₁ d₂) q =
        match lookupLast d₂ q with
        | some v => some v
        | none => lookup d₁ q := by
  induction d₂ with
  | nil =>
    intro d₁ q
    simp [dictUpdate, lookupLast]
  | cons p ps ih =>
    intro d₁ q
    rw [show dictUpdate d₁ (p :: ps) = dictUpdate (dictSet d₁ p.1 p.2) ps from rfl,
        ih (dictSet d₁ p.1 p.2) q]
    cases h : lookupLast ps q with
    | some v => simp [lookupLast, h]
    | none =>
      simp only [lookupLast, h, lookup_dictSet]
      by_cases h1 : p.1 = q
      · simp [h1]
      · simp [h1]

theorem pickFields_eq_none_iff (src : List (String × JVal)) (keys : List String) :
    pickFields keys src = none ↔ ∃ k ∈ keys, lookup src k = none := by
  induction keys with
  | nil => simp [pickFields]
  | cons k ks ih =>
    simp only [pickFields]
    cases hk : lookup src k with
    | none =>
      constructor
      · intro _
        exact ⟨k, List.mem_cons_self k ks, hk⟩
      · intro _
        rfl
    | some v =>
      cases hrest : pickFields ks src with
      | none =>
        constructor
        · intro _
          rcases ih.mp hrest with ⟨q, hq, hnone⟩
          exact ⟨q, List.mem_cons_of_mem k hq, hnone⟩
        · intro _
          rfl
      | some out =>
        constructor
        · intro h
          exact absurd h (by simp)
        · rintro ⟨q, hq, hnone⟩
          rcases List.mem_cons.mp hq with h | h
          · subst h
            rw [hk] at hnone
            exact Option.noConfusion hnone
          · have hx := ih.mpr ⟨q, h, hnone⟩
            rw [hrest] at hx
            exact Option.noConfusion hx

theorem lookup_pickFields (src : List (String × JVal)) (keys : List String) :
    ∀ out, pickFields keys src = some out →
      ∀ q, lookup out q = if q ∈ keys then lookup src q else none := by
  induction keys with
  | nil =>
    intro out h q
    simp only [pickFields, Option.some.injEq] at h
    subst h
    simp [lookup]
  | cons k ks ih =>
    intro out h q
    simp only [pickFields] at h
    cases hk : lookup src k with
    | none =>
      rw [hk] at h
      exact Option.noConfusion h
    | some v =>
      rw [hk] at h
      cases hrest : pickFields ks src with
      | none =>
        rw [hrest] at h
        exact Option.noConfusion h
      | some out' =>
        rw [hrest] at h
        simp only [Option.map_some', Option.some.injEq] at h
        subst h
        by_cases hqk : k = q
        · subst hqk
          simp [lookup, hk]
        · simp only [lookup, if_neg hqk, ih out' hrest q]
          simp [List.mem_cons, Ne.symm hqk]

theorem lookupLast_pickFields (src : List (String × JVal)) (keys : List String) :
    ∀ out, pickFields keys src = some out →
      ∀ q, lookupLast out q = if q ∈ keys then lookup src q else none := by
  induction keys with
  | nil =>
    intro out h q
    simp only [pickFields, Option.some.injEq] at h
    subst h
    simp [lookupLast]
  | cons k ks ih =>
    intro out h q
    simp only [pickFields] at h
    cases hk : lookup src k with
    | none =>
      rw [hk] at h
      exact Option.noConfusion h
    | some v =>
      rw [hk] at h
      cases hrest : pickFields ks src with
      | none =>
        rw [hrest] at h
        exact Option.noConfusion h
      | some out' =>
        rw [hrest] at h
        simp only [Option.map_some', Option.some.injEq] at h
        subst h
        simp only [lookupLast, ih out' hrest q]
        by_cases hq : q ∈ ks
        · simp only [if_pos hq]
          cases hsq : lookup src q with
          | some w => simp [List.mem_cons, Or.inr hq, hsq]
          | none =>
            by_cases hkq : k = q
            · rw [← hkq, hk] at hsq
              exact Option.noConfusion hsq
            · simp [List.mem_cons, Or.inr hq, hsq, hkq]
        · simp only [if_neg hq]
          by_cases hkq : k = q
          · subst hkq
            simp [List.mem_cons, hk]
          · simp [List.mem_cons, hkq, Ne.symm hkq, hq]

theorem pickCandidateFields_eq (alert_dict : List (String × JVal))
    (cfs : List (String × JVal))
    (hcobj : lookup alert_dict "candidate" = some (.jobj cfs)) :
    ∀ keys, pickCandidateFields alert_dict keys = pickFields keys cfs := by
  intro keys
  induction keys with
  | nil => rfl
  | cons k ks ih =>
    simp only [pickCandidateFields, pickFields, hcobj, ih]

theorem lighten_alert_lookup (save_fields : List (String × List String))
    (alert_dict : List (String × JVal)) (top_keys cand_keys : List String)
    (cfs out : List (String × JVal)) (q : String)
    (htop : lookup save_fields "top-level" = some top_keys)
    (hcand : lookup save_fields "candidate" = some cand_keys)
    (hcobj : lookup alert_dict "candidate" = some (.jobj cfs))
    (hout : lighten_alert save_fields alert_dict = some out) :
    lookup out q =
      if q ∈ cand_keys then lookup cfs q
      else if q ∈ top_keys then lookup alert_dict q
      else none := by
  simp only [lighten_alert, htop, hcand,
    pickCandidateFields_eq alert_dict cfs hcobj] at hout
  cases htp : pickFields top_keys alert_dict with
  | none =>
    rw [htp] at hout
    exact Option.noConfusion hout
  | some alert_lite =>
    rw [htp] at hout
    cases hcp : pickFields cand_keys cfs with
    | none =>
      rw [hcp] at hout
      exact Option.noConfusion hout
    | some cand_lite =>
      rw [hcp] at hout
      simp only [Option.some.injEq] at hout
      subst hout
      rw [lookup_dictUpdate, lookupLast_pickFields cfs cand_keys cand_lite hcp q]
      by_cases hq : q ∈ cand_keys
      · simp only [if_pos hq]
        cases hcq : lookup cfs q with
        | some w => rfl
        | none =>
          have hx := (pickFields_eq_none_iff cfs cand_keys).mpr ⟨q, hq, hcq⟩
          rw [hcp] at hx
          exact Option.noConfusion hx
      · simp only [if_neg hq]
        exact lookup_pickFields alert_dict top_keys alert_lite htp q

theorem lighten_alert_none_iff (save_fields : List (String × List String))
    (alert_dict : List (String × JVal)) (top_keys cand_keys : List String)
    (cfs : List (String × JVal))
    (htop : lookup save_fields "top-level" = some top_keys)
    (hcand : lookup save_fields "candidate" = some cand_keys)
    (hcobj : lookup alert_dict "candidate" = some (.jobj cfs)) :
    lighten_alert save_fields alert_dict = none ↔
      (∃ k ∈ top_keys, lookup alert_dict k = none) ∨
        (∃ k ∈ cand_keys, lookup cfs k = none) := by
  simp only [lighten_alert, htop, hcand,
    pickCandidateFields_eq alert_dict cfs hcobj]
  cases htp : pickFields top_keys alert_dict with
  | none =>
    constructor
    · intro _
      exact Or.inl ((pickFields_eq_none_iff _ _).mp htp)
    · intro _
      rfl
  | some alert_lite =>
    have htpn : ¬ ∃ k ∈ top_keys, lookup alert_dict k = none := by
      intro hx
      have h := (pickFields_eq_none_iff _ _).mpr hx
      rw [htp] at h
      exact Option.noConfusion h
    cases hcp : pickFields cand_keys cfs with
    | none =>
      constructor
      · intro _
        exact Or.inr ((pickFields_eq_none_iff _ _).mp hcp)
      · intro _
        rfl
    | some cand_lite =>
      have hcpn : ¬ ∃ k ∈ cand_keys, lookup cfs k = none := by
        intro hx
        have h := (pickFields_eq_none_iff _ _).mpr hx
        rw [hcp] at h
        exact Option.noConfusion h
      constructor
      · intro h
        exact absurd h (by simp)
      · rintro (h | h)
        · exact absurd h htpn
        · exact absurd h hcpn

/-- Claim C8 counterexample: the claim says that for EVERY field
specification the top-level group's names select root fields and every other
group's names select same-named nested groups, so that
`{"top": ["a"], "group": ["b"]}` on `{"a":1,"x":2,"group":{"b":3,"c":4}}`
yields exactly `{"a":1,"b":3}`.  But `_lighten_alert` hard-codes the group
names `"top-level"` and `"candidate"`: on that field specification it raises
`KeyError("top-level")` (here `none`) instead of returning the projection. -/
theorem claim8_counterexample :
    lighten_alert [("top", ["a"]), ("group", ["b"])]
      [("a", .jint 1), ("x", .jint 2), ("group", .jobj [("b", .jint 3), ("c", .jint 4)])]
      = none := rfl

/-- Claim C8 as amended: for every record and every field specification whose
groups are the two names the code supports — `"top-level"` (root fields) and
`"candidate"` (fields nested under the record's `"candidate"` group) —
projection returns exactly the whitelisted fields: a key maps to its value
from the candidate group if requested there, else to its root value if
requested at top level, and every unspecified field is dropped (`lookup`
yields `none`); and projection fails (a `KeyError`, surfaced as the
per-message decode failure) precisely when some requested field is missing. -/
theorem claim8_amended (save_fields : List (String × List String))
    (alert_dict : List (String × JVal)) (top_keys cand_keys : List String)
    (cfs : List (String × JVal))
    (htop : lookup save_fields "top-level" = some top_keys)
    (hcand : lookup save_fields "candidate" = some cand_keys)
    (hcobj : lookup alert_dict "candidate" = some (.jobj cfs)) :
    (∀ out, lighten_alert save_fields alert_dict = some out →
      ∀ q, lookup out q =
        if q ∈ cand_keys then lookup cfs q
        else if q ∈ top_keys then lookup alert_dict q
        else none)
    ∧ (lighten_alert save_fields alert_dict = none ↔
        (∃ k ∈ top_keys, lookup alert_dict k = none) ∨
          (∃ k ∈ cand_keys, lookup cfs k = none)) :=
  ⟨fun out hout q =>
    lighten_alert_lookup save_fields alert_dict top_keys cand_keys cfs out q
      htop hcand hcobj hout,
   lighten_alert_none_iff save_fields alert_dict top_keys cand_keys cfs
     htop hcand hcobj⟩

/-- Witness for claim C8: the spec's own example with the supported group
names: projection keeps exactly `a` (root) and `b` (nested), drops `x` and
`c`. -/
theorem claim8_witness :
    lighten_alert [("top-level", ["a"]), ("candidate", ["b"])]
      [("a", JVal.jint 1), ("x", JVal.jint 2),
       ("candidate", JVal.jobj [("b", JVal.jint 3), ("c", JVal.jint 4)])]
      = some [("a", JVal.jint 1), ("b", JVal.jint 3)]
    ∧ lookup [("a", JVal.jint 1), ("b", JVal.jint 3)] "b" = some (JVal.jint 3)
    ∧ lookup [("a", JVal.jint 1), ("b", JVal.jint 3)] "x" = none := by
  refine ⟨rfl, ?_, ?_⟩
  · have h := (claim8_amended [("top-level", ["a"]), ("candidate", ["b"])]
      [("a", JVal.jint 1), ("x", JVal.jint 2),
       ("candidate", JVal.jobj [("b", JVal.jint 3), ("c", JVal.jint 4)])]
      ["a"] ["b"] [("b", JVal.jint 3), ("c", JVal.jint 4)] rfl rfl rfl).1
      [("a", JVal.jint 1), ("b", JVal.jint 3)] rfl "b"
    simpa using h
  · have h := (claim8_amended [("top-level", ["a"]), ("candidate", ["b"])]
      [("a", JVal.jint 1), ("x", JVal.jint 2),
       ("candidate", JVal.jobj [("b", JVal.jint 3), ("c", JVal.jint 4)])]
      ["a"] ["b"] [("b", JVal.jint 3), ("c", JVal.jint 4)] rfl rfl rfl).1
      [("a", JVal.jint 1), ("b", JVal.jint 3)] rfl "x"
    simpa using h
